import Mathlib

/-!
Shallow embedding of the coolledx-homeassistant-fastapi-bridge repository,
centred on src/sign_manager.py (the SignManager class: job queue, connection
supervisor, job processor and synchronous facade) and src/sign_api.py (the
HTTP resume endpoint sign_on).

Conventions of the embedding:
* Python file-system paths are lists of path components (strings), rooted at
  the file-system root; anim_dir is assumed to be an absolute, already
  normalised path and symbolic links are not modelled, so Path.resolve()
  is pure lexical normalisation of "." and ".." segments.
* Python exceptions are modelled by an explicit error type carried in
  Except; the string stored in an exception (what str(e) returns) is
  modelled as an arbitrary String, possibly empty.
* asyncio futures are modelled by an explicit write-once slot state.
* The behaviour of the BLE transport (Client.send_command) is an oracle:
  either the send returns normally or it raises an exception with a given
  message.
-/

namespace SignManager

/-- The dictionary that _process_job stores into a Job future and that
play_jt returns to the caller: keys "ok", "kind", "jt_path" and, on the
failure path only, "error". -/
structure Result where
  ok : Bool
  kind : String
  jt_path : String
  error : Option String
deriving Repr, DecidableEq

/-- State of the asyncio future acting as a Job result slot: either still
pending or resolved with a Result dictionary. -/
inductive FutureState where
  | unset
  | set (r : Result)
deriving Repr, DecidableEq

/-- A queued request, as built by _submit_job: a kind tag (the code only
ever builds "jt"), the resolved payload path, and (modelled separately as a
FutureState) a write-once result slot. -/
structure Job where
  kind : String
  jt_path : List String
deriving Repr, DecidableEq

/-- str(job.jt_path): the textual form of an absolute path. -/
def pathToString (p : List String) : String :=
  "/" ++ String.intercalate "/" p

/-- Outcome of one client.send_command call: it either returns, or raises
an exception whose str() is msg (msg may be the empty string, as for
TimeoutError() or BleakError() raised without arguments). -/
inductive SendOutcome where
  | success
  | raise (msg : String)
deriving Repr, DecidableEq

/-- Whether a future is already resolved (job.future.done()). -/
def FutureState.isDone : FutureState → Bool
  | .unset => false
  | .set _ => true

/-- SignManager._process_job: execute one Job against the connected client.
Given the Job, the current state of its result slot and the transport
outcome, return the new slot state and, when the code re-raises, the
message of the propagating exception (none means normal return).

Mirrors src/sign_manager.py lines 171-205: on a "jt" job it sends the
command; on success it resolves the future with ok=True, the kind and the
path and returns; on any exception it resolves the future (unless already
done) with ok=False and error=str(e), then re-raises. A non-"jt" kind
raises ValueError inside the try block and is handled by the same except
clause. -/
def process_job (job : Job) (fut : FutureState) (send : SendOutcome) :
    FutureState × Option String :=
  if job.kind = "jt" then
    match send with
    | .success =>
        (FutureState.set ⟨true, job.kind, pathToString job.jt_path, none⟩, none)
    | .raise msg =>
        ((if fut.isDone then fut
          else FutureState.set ⟨false, job.kind, pathToString job.jt_path, some msg⟩),
         some msg)
  else
    let msg := "Unknown job kind: " ++ job.kind
    ((if fut.isDone then fut
      else FutureState.set ⟨false, job.kind, pathToString job.jt_path, some msg⟩),
     some msg)

/-- Observable events of the connection worker: a Job is pulled from the
queue and handed to the processor (dispatch), a Job result slot is
resolved (resolve), or the session is torn down and the supervisor goes
back to the connect path (reconnect). -/
inductive Event where
  | dispatch (j : Job)
  | resolve (j : Job) (r : Result)
  | reconnect
deriving Repr, DecidableEq

/-- The inner dispatch loop of _run_client_forever (lines 151-154): with a
session open, repeatedly dequeue the head Job and process it with a fresh
(unset) future. Returns the emitted event trace, the Jobs still queued,
and whether the loop ended because _process_job re-raised (true) or
because the static queue drained and the worker would block in get()
(false). A Job whose processing raises has already been dequeued and is
not retried; the Jobs behind it stay queued. -/
def runSession (send : Job → SendOutcome) :
    List Job → List Event × List Job × Bool
  | [] => ([], [], false)
  | j :: rest =>
    let pr := process_job j FutureState.unset (send j)
    let evs := Event.dispatch j ::
      (match pr.1 with
       | .set r => [Event.resolve j r]
       | .unset => [])
    match pr.2 with
    | some _ => (evs, rest, true)
    | none =>
      let t := runSession send rest
      (evs ++ t.1, t.2.1, t.2.2)

/-- The reconnect loop of _run_client_forever (lines 144-169), fuelled by
the list of connection-attempt outcomes (true = the Client context opens,
false = opening raises). On a failed open, the queued Jobs are left intact
and the supervisor retries after the backoff sleep; when a session breaks
(processing re-raised), the supervisor reconnects with the remaining
queue. When the fuel ends, or the queue drains inside a session, the
trace ends. -/
def runWorkerAux (send : Job → SendOutcome) :
    List Bool → List Job → List Event
  | [], _ => []
  | c :: cs, jobs =>
    if c then
      let t := runSession send jobs
      if t.2.2 then t.1 ++ Event.reconnect :: runWorkerAux send cs t.2.1
      else t.1
    else
      Event.reconnect :: runWorkerAux send cs jobs

/-- _run_client_forever with its outer guard `while not self._stop.is_set()`
(line 144): with the stop event already set, the loop body never runs. -/
def run_client_forever (stop : Bool) (send : Job → SendOutcome)
    (connects : List Bool) (jobs : List Job) : List Event :=
  if stop then [] else runWorkerAux send connects jobs

/-- The Jobs handed to the processor, in trace order. -/
def dispatchedJobs (tr : List Event) : List Job :=
  tr.filterMap fun e =>
    match e with
    | .dispatch j => some j
    | _ => none

/-- The resolve events of a trace, in order. -/
def resolvedJobs (tr : List Event) : List (Job × Result) :=
  tr.filterMap fun e =>
    match e with
    | .resolve j r => some (j, r)
    | _ => none

/-- Well-formedness of a worker trace: every dispatch of a Job is
immediately followed by the resolution of that same Job (so each Job is
resolved before the next Job is dispatched, and exactly once per
dispatch), and resolve events occur only in that position. -/
def goodTrace : List Event → Bool
  | [] => true
  | Event.reconnect :: tr => goodTrace tr
  | Event.dispatch j :: Event.resolve j' _ :: tr =>
      decide (j = j') && goodTrace tr
  | _ => false

/-- The exceptions play_jt and stop can raise toward the synchronous
caller: ValueError for an empty name, FileNotFoundError for a missing .jt
file, RuntimeError from asyncio when the event loop is closed. -/
inductive PyErr where
  | valueError (msg : String)
  | fileNotFoundError (msg : String)
  | runtimeError (msg : String)
deriving Repr, DecidableEq

/-- Python str.strip() restricted to the ASCII whitespace characters. -/
def isPySpace (c : Char) : Bool :=
  c = ' ' || c = '\t' || c = '\n' || c = '\x0d' || c = '\x0b' || c = '\x0c'

/-- name.strip(): drop leading and trailing whitespace. -/
def pyStrip (s : String) : String :=
  String.mk (((s.toList.dropWhile isPySpace).reverse.dropWhile isPySpace).reverse)

/-- Lexical normalisation done by Path.resolve() (no symbolic links):
empty and "." segments vanish, ".." removes the last kept component (at
the root it is a no-op, like /.. on POSIX). -/
def normalizeComps : List String → List String → List String
  | acc, [] => acc
  | acc, c :: rest =>
    if c = "" || c = "." then normalizeComps acc rest
    else if c = ".." then normalizeComps acc.dropLast rest
    else normalizeComps (acc ++ [c]) rest

/-- Split a character list on the path separator, like
str.split("/"). -/
def splitComps (acc : List Char) : List Char → List String
  | [] => [String.mk acc.reverse]
  | c :: cs =>
    if c = '/' then String.mk acc.reverse :: splitComps [] cs
    else splitComps (c :: acc) cs

/-- Whether the textual path is anchored at the root. -/
def startsWithSlash (s : String) : Bool :=
  match s.toList with
  | [] => false
  | c :: _ => c = '/'

/-- (self.anim_dir / (name ++ ".jt")).resolve() of play_jt line 109:
pathlib splits the joined name on "/" (an anchored name starting with "/"
discards anim_dir), then resolve() normalises lexically. anim_dir is the
already-normalised absolute path of the animations directory. -/
def resolveJt (anim_dir : List String) (name : String) : List String :=
  let raw := name ++ ".jt"
  let base := if startsWithSlash raw then [] else anim_dir
  normalizeComps base (splitComps [] raw.toList)

/-- The state of a SignManager instance visible to the synchronous facade:
the animations directory, the set of regular files that exist (the
is_file oracle), whether the background event loop has been closed
(after stop, once the worker thread exits), whether the stop event is
set, and last_jt. -/
structure SyncState where
  anim_dir : List String
  files : List (List String)
  loopClosed : Bool
  stopFlag : Bool
  last_jt : Option (List String)
deriving Repr, DecidableEq

instance {ε α : Type} [DecidableEq ε] [DecidableEq α] : DecidableEq (Except ε α) := fun a b =>
  match a, b with
  | .error e, .error f =>
      if h : e = f then .isTrue (congrArg Except.error h)
      else .isFalse (fun hh => h (Except.error.inj hh))
  | .error _, .ok _ => .isFalse Except.noConfusion
  | .ok _, .error _ => .isFalse Except.noConfusion
  | .ok a, .ok b =>
      if h : a = b then .isTrue (congrArg Except.ok h)
      else .isFalse (fun hh => h (Except.ok.inj hh))

/-- What one play_jt call produces: the value returned or the exception
raised, the state of the SignManager afterwards, and the Jobs this call
put on the job queue. -/
structure PlayOutput where
  result : Except PyErr Result
  state : SyncState
  enqueued : List Job
deriving Repr, DecidableEq

/-- SignManager.play_jt (lines 99-120): strip the name and raise
ValueError if empty; resolve the .jt path and raise FileNotFoundError if
it is not a file; otherwise hand _submit_job to the background loop
(run_coroutine_threadsafe raises RuntimeError when the loop is closed,
before anything is enqueued), block on the future and, when the returned
dictionary has ok truthy, record the path in last_jt. The Result the Job
future was resolved with is the oracle argument. -/
def play_jt (st : SyncState) (name : String) (oracle : Result) : PlayOutput :=
  let name := pyStrip name
  if name = "" then
    ⟨Except.error (PyErr.valueError "Empty JT name"), st, []⟩
  else
    let jt_path := resolveJt st.anim_dir name
    if jt_path ∈ st.files then
      if st.loopClosed then
        ⟨Except.error (PyErr.runtimeError "Event loop is closed"), st, []⟩
      else
        let job : Job := ⟨"jt", jt_path⟩
        let st' := if oracle.ok then { st with last_jt := some jt_path } else st
        ⟨Except.ok oracle, st', [job]⟩
    else
      ⟨Except.error
        (PyErr.fileNotFoundError ("JT not found: " ++ pathToString jt_path)),
       st, []⟩

/-- SignManager.off (lines 122-126): defined as play_jt on its blank_name
argument, whose default value is "blank". -/
def off (st : SyncState) (oracle : Result) (blank_name : String) : PlayOutput :=
  play_jt st blank_name oracle

/-- The call off() with the default argument. -/
def off_default (st : SyncState) (oracle : Result) : PlayOutput :=
  off st oracle "blank"

/-- SignManager.stop (lines 81-90): schedule a callback on the loop that
sets the stop event, cancels all tasks and stops the loop, then join the
worker thread with a 5 second bound. call_soon_threadsafe raises
RuntimeError if the loop is already closed; Thread.join with a timeout
never raises, whether or not the thread exits in time. On the normal
path the worker thread runs the loop to completion and closes it, which
the post-state records. -/
def stop (st : SyncState) : Except PyErr SyncState :=
  if st.loopClosed then
    Except.error (PyErr.runtimeError "Event loop is closed")
  else
    Except.ok { st with stopFlag := true, loopClosed := true }

end SignManager

namespace SignApi

/-- A FastAPI HTTPException: status code and detail string. -/
structure HttpExc where
  status : Nat
  detail : String
deriving Repr, DecidableEq

/-- What one sign_on call produces: either the raised HTTPException or
the JSON body on success (ok flag from the subprocess, the jt_path
echoed), together with the tweak_sign.py invocations made (each as its
extra-args list). -/
structure OnOutput where
  response : Except HttpExc (Bool × String)
  cmds : List (List String)
deriving Repr, DecidableEq

/-- State read by the /on endpoint: the LAST_JT global (None until a /jt
request succeeds) and the os.path.isfile oracle as the set of existing
file paths. -/
structure ApiState where
  last_jt : Option String
  files : List String
deriving Repr, DecidableEq

/-- src/sign_api.py sign_on (lines 159-185): `if not LAST_JT` (None or
empty string) raises 400 "No last JT animation to resume yet." without
running anything; a set LAST_JT whose file no longer exists raises 404
without running anything; otherwise run_cmd(["-jt", LAST_JT]) is
executed and the endpoint returns ok from its exit status (raising 500
on failure). runOk is the subprocess-success oracle. -/
def sign_on (st : ApiState) (runOk : Bool) : OnOutput :=
  match st.last_jt with
  | none => ⟨Except.error ⟨400, "No last JT animation to resume yet."⟩, []⟩
  | some p =>
    if p = "" then
      ⟨Except.error ⟨400, "No last JT animation to resume yet."⟩, []⟩
    else if p ∈ st.files then
      if runOk then ⟨Except.ok (true, p), [["-jt", p]]⟩
      else ⟨Except.error ⟨500, "run_cmd failed"⟩, [["-jt", p]]⟩
    else
      ⟨Except.error ⟨404, "Last JT file not found: " ++ p⟩, []⟩

end SignApi

open SignManager

/-- Concrete animations directory used in examples:
/home/tommy/coolledx-driver/animations. -/
def animDir0 : List String := ["home", "tommy", "coolledx-driver", "animations"]

/-- A concrete success Result, as _process_job builds it for heart.jt. -/
def rOk : Result :=
  ⟨true, "jt", pathToString (animDir0 ++ ["heart.jt"]), none⟩

/-- A concrete failure Result. -/
def rFail : Result :=
  ⟨false, "jt", pathToString (animDir0 ++ ["heart.jt"]), some "boom"⟩

/-- A concrete live SignManager state where heart.jt exists. -/
def st0 : SyncState :=
  ⟨animDir0, [animDir0 ++ ["heart.jt"]], false, false, none⟩

/-- The same state after stop: the loop is closed and the stop event set. -/
def stClosed : SyncState :=
  ⟨animDir0, [animDir0 ++ ["heart.jt"]], true, true, none⟩

/-- A transport oracle in which every send succeeds. -/
def send0 : Job → SendOutcome := fun _ => SendOutcome.success

lemma process_job_fresh (j : Job) (s : SendOutcome) :
    ∃ r, (process_job j FutureState.unset s).1 = FutureState.set r := by
  unfold process_job
  by_cases h : j.kind = "jt"
  · cases s <;> simp [h, FutureState.isDone]
  · simp [h, FutureState.isDone]

lemma dispatchedJobs_append (a b : List Event) :
    dispatchedJobs (a ++ b) = dispatchedJobs a ++ dispatchedJobs b := by
  simp [dispatchedJobs, List.filterMap_append]

lemma resolvedJobs_append (a b : List Event) :
    resolvedJobs (a ++ b) = resolvedJobs a ++ resolvedJobs b := by
  simp [resolvedJobs, List.filterMap_append]

lemma dispatchedJobs_cons_reconnect (tr : List Event) :
    dispatchedJobs (Event.reconnect :: tr) = dispatchedJobs tr := by
  simp [dispatchedJobs]

lemma dispatchedJobs_cons_dispatch (j : Job) (tr : List Event) :
    dispatchedJobs (Event.dispatch j :: tr) = j :: dispatchedJobs tr := by
  simp [dispatchedJobs]

lemma dispatchedJobs_cons_resolve (j : Job) (r : Result) (tr : List Event) :
    dispatchedJobs (Event.resolve j r :: tr) = dispatchedJobs tr := by
  simp [dispatchedJobs]

lemma runSession_spec (send : Job → SendOutcome) (jobs : List Job) :
    (∀ tail, goodTrace ((runSession send jobs).1 ++ tail) = goodTrace tail)
    ∧ dispatchedJobs (runSession send jobs).1 ++ (runSession send jobs).2.1 = jobs := by
  induction jobs with
  | nil => simp [runSession, dispatchedJobs]
  | cons j rest ih =>
    obtain ⟨r, hr⟩ := process_job_fresh j (send j)
    cases hx : (process_job j FutureState.unset (send j)).2 with
    | some m =>
      constructor
      · intro tail
        simp [runSession, hr, hx, goodTrace]
      · simp [runSession, hr, hx, dispatchedJobs]
    | none =>
      have step1 : (runSession send (j :: rest)).1
          = Event.dispatch j :: Event.resolve j r :: (runSession send rest).1 := by
        simp [runSession, hr, hx]
      have step2 : (runSession send (j :: rest)).2.1 = (runSession send rest).2.1 := by
        simp [runSession, hr, hx]
      constructor
      · intro tail
        rw [step1]
        simp only [List.cons_append]
        simp only [goodTrace, decide_eq_true_eq, ih.1 tail]
        simp
      · rw [step1, step2, dispatchedJobs_cons_dispatch,
          dispatchedJobs_cons_resolve, List.cons_append, ih.2]

lemma runWorkerAux_spec (send : Job → SendOutcome) :
    ∀ (connects : List Bool) (jobs : List Job),
      goodTrace (runWorkerAux send connects jobs) = true
      ∧ ∃ rem, dispatchedJobs (runWorkerAux send connects jobs) ++ rem = jobs := by
  intro connects
  induction connects with
  | nil => intro jobs; exact ⟨rfl, jobs, rfl⟩
  | cons c cs ih =>
    intro jobs
    by_cases hc : c
    · cases hb : (runSession send jobs).2.2 with
      | true =>
        obtain ⟨hg, rem2, hrem2⟩ := ih (runSession send jobs).2.1
        constructor
        · simp [runWorkerAux, hc, hb, (runSession_spec send jobs).1, goodTrace, hg]
        · refine ⟨rem2, ?_⟩
          simp only [runWorkerAux, hc, hb, if_true, dispatchedJobs_append]
          have : dispatchedJobs (Event.reconnect :: runWorkerAux send cs (runSession send jobs).2.1)
              = dispatchedJobs (runWorkerAux send cs (runSession send jobs).2.1) := by
            simp [dispatchedJobs]
          rw [this, List.append_assoc, hrem2]
          exact (runSession_spec send jobs).2
      | false =>
        constructor
        · have h := (runSession_spec send jobs).1 []
          simp only [List.append_nil] at h
          simp [runWorkerAux, hc, hb, h, goodTrace]
        · refine ⟨(runSession send jobs).2.1, ?_⟩
          simp only [runWorkerAux, hc, hb, if_true]
          exact (runSession_spec send jobs).2
    · obtain ⟨hg, rem, hrem⟩ := ih jobs
      constructor
      · simp [runWorkerAux, hc, goodTrace, hg]
      · refine ⟨rem, ?_⟩
        have step : runWorkerAux send (c :: cs) jobs
            = Event.reconnect :: runWorkerAux send cs jobs := by
          simp [runWorkerAux, hc]
        rw [step, dispatchedJobs_cons_reconnect, hrem]

lemma goodTrace_resolved_eq_dispatched :
    ∀ tr : List Event, goodTrace tr = true →
      (resolvedJobs tr).map Prod.fst = dispatchedJobs tr
  | [], _ => rfl
  | Event.reconnect :: tr, h => by
      have ih := goodTrace_resolved_eq_dispatched tr (by simpa [goodTrace] using h)
      simp [resolvedJobs, dispatchedJobs] at ih ⊢
      exact ih
  | Event.dispatch j :: Event.resolve j' r :: tr, h => by
      have h2 : j = j' ∧ goodTrace tr = true := by
        simpa [goodTrace, Bool.and_eq_true] using h
      have ih := goodTrace_resolved_eq_dispatched tr h2.2
      simp [resolvedJobs, dispatchedJobs] at ih ⊢
      exact ⟨h2.1.symm, ih⟩

/-- C1: whenever _process_job ends (normally or by re-raising an
exception toward the reconnect path of _run_client_forever), the
dequeued Job fresh result slot has already been resolved; and over any
worker run, the resolved Jobs are exactly the dispatched Jobs in order,
so every dispatched Job result slot is resolved exactly once and no Job
is left unresolved because of a reconnect. -/
theorem C1_job_resolved_before_propagation :
    (∀ (j : Job) (s : SendOutcome),
      (process_job j FutureState.unset s).1 ≠ FutureState.unset)
    ∧ (∀ (stopSet : Bool) (send : Job → SendOutcome)
        (connects : List Bool) (jobs : List Job),
        (resolvedJobs (run_client_forever stopSet send connects jobs)).map Prod.fst
          = dispatchedJobs (run_client_forever stopSet send connects jobs)) := by
  constructor
  · intro j s
    obtain ⟨r, hr⟩ := process_job_fresh j s
    simp [hr]
  · intro stopSet send connects jobs
    by_cases h : stopSet
    · simp [run_client_forever, h, resolvedJobs, dispatchedJobs]
    · have hg := (runWorkerAux_spec send connects jobs).1
      have := goodTrace_resolved_eq_dispatched (runWorkerAux send connects jobs) hg
      simpa [run_client_forever, h] using this

/-- C2: in every worker run, the Jobs handed to the processor form an
initial segment of the queued Jobs (strict FIFO, no reordering, no
duplication), and the trace is sequential with each dispatched Job
resolved immediately, before the next Job is dispatched, across any
pattern of reconnects. -/
theorem C2_fifo_dispatch :
    ∀ (stopSet : Bool) (send : Job → SendOutcome)
      (connects : List Bool) (jobs : List Job),
      goodTrace (run_client_forever stopSet send connects jobs) = true
      ∧ ∃ rem, dispatchedJobs (run_client_forever stopSet send connects jobs) ++ rem
          = jobs := by
  intro stopSet send connects jobs
  by_cases h : stopSet
  · exact ⟨by simp [run_client_forever, h, goodTrace],
      jobs, by simp [run_client_forever, h, dispatchedJobs]⟩
  · obtain ⟨hg, rem, hrem⟩ := runWorkerAux_spec send connects jobs
    exact ⟨by simpa [run_client_forever, h] using hg,
      rem, by simpa [run_client_forever, h] using hrem⟩

/-- C3 fails as stated: a transport exception raised without a message
(str(e) = "", as for TimeoutError()) makes _process_job resolve the Job
with ok=false and an EMPTY error string, so the error message is not
non-empty. -/
theorem C3_counterexample :
    process_job ⟨"jt", animDir0 ++ ["heart.jt"]⟩ FutureState.unset
        (SendOutcome.raise "")
      = (FutureState.set
          ⟨false, "jt", pathToString (animDir0 ++ ["heart.jt"]), some ""⟩,
         some "")
    ∧ ("" : String).length = 0 := by
  constructor
  · rfl
  · rfl

/-- C3 amended: when the transport send raises during dispatch of a "jt"
Job, _process_job resolves the fresh result slot with ok=false and error
equal to str(e) — which captures the exception message but is empty when
the exception carries none — and then re-raises the same exception. -/
theorem C3_amended_error_captured :
    ∀ (p : List String) (msg : String),
      process_job ⟨"jt", p⟩ FutureState.unset (SendOutcome.raise msg)
        = (FutureState.set ⟨false, "jt", pathToString p, some msg⟩, some msg) := by
  intro p msg
  rfl

/-- C6: off() with its default "blank" argument is the very same
computation as play_jt("blank"): identical validation and outcome,
identical enqueued Job, identical post state and last_jt update. -/
theorem C6_off_equiv_blank :
    ∀ (st : SyncState) (oracle : Result),
      off_default st oracle = play_jt st "blank" oracle
      ∧ (off_default st oracle).result = (play_jt st "blank" oracle).result
      ∧ (off_default st oracle).enqueued = (play_jt st "blank" oracle).enqueued
      ∧ (off_default st oracle).state.last_jt
          = (play_jt st "blank" oracle).state.last_jt :=
  fun _ _ => ⟨rfl, rfl, rfl, rfl⟩

/-- C4: play_jt raises ValueError on an empty or whitespace-only name and
FileNotFoundError when the resolved .jt path is not a file; both happen
synchronously before any Job exists, leaving the SignManager state
unchanged and enqueueing nothing. -/
theorem C4_validation_before_queueing :
    ∀ (st : SyncState) (name : String) (oracle : Result),
      (pyStrip name = "" →
        play_jt st name oracle
          = ⟨Except.error (PyErr.valueError "Empty JT name"), st, []⟩)
      ∧ (pyStrip name ≠ "" →
          resolveJt st.anim_dir (pyStrip name) ∉ st.files →
          play_jt st name oracle
            = ⟨Except.error (PyErr.fileNotFoundError
                ("JT not found: "
                  ++ pathToString (resolveJt st.anim_dir (pyStrip name)))),
               st, []⟩) := by
  intro st name oracle
  constructor
  · intro h
    simp [play_jt, h]
  · intro h1 h2
    simp [play_jt, h1, h2]

/-- C4 applied at concrete inputs: a whitespace-only name and the name of
a missing file are both rejected with the state untouched and nothing
enqueued. -/
theorem C4_witness :
    play_jt st0 "   " rOk
      = ⟨Except.error (PyErr.valueError "Empty JT name"), st0, []⟩
    ∧ play_jt st0 "nope" rOk
      = ⟨Except.error (PyErr.fileNotFoundError
          ("JT not found: "
            ++ pathToString (resolveJt st0.anim_dir (pyStrip "nope")))),
         st0, []⟩ :=
  ⟨(C4_validation_before_queueing st0 "   " rOk).1 (by decide),
   (C4_validation_before_queueing st0 "nope" rOk).2 (by decide) (by decide)⟩

/-- C5: stop on a live manager returns without raising (the bounded
thread join never raises even when it times out); a worker whose stop
event is set dispatches no Job at all; and play_jt called once the loop
is closed fails synchronously with an exception, enqueueing nothing and
leaving the state unchanged, instead of blocking the caller. -/
theorem C5_stop_behaviour :
    (∀ st : SyncState, st.loopClosed = false →
      stop st = Except.ok { st with stopFlag := true, loopClosed := true })
    ∧ (∀ (send : Job → SendOutcome) (connects : List Bool) (jobs : List Job),
        run_client_forever true send connects jobs = [])
    ∧ (∀ (st : SyncState) (name : String) (oracle : Result),
        st.loopClosed = true →
        (play_jt st name oracle).enqueued = []
        ∧ (play_jt st name oracle).state = st
        ∧ ∃ e, (play_jt st name oracle).result = Except.error e) := by
  refine ⟨?_, ?_, ?_⟩
  · intro st h
    simp [stop, h]
  · intro send connects jobs
    rfl
  · intro st name oracle h
    by_cases h1 : pyStrip name = ""
    · simp [play_jt, h1]
    · by_cases h2 : resolveJt st.anim_dir (pyStrip name) ∈ st.files
      · simp [play_jt, h1, h2, h]
      · simp [play_jt, h1, h2]

/-- C5 applied at concrete inputs. -/
theorem C5_witness :
    stop st0 = Except.ok stClosed
    ∧ run_client_forever true send0 [true] [] = []
    ∧ (play_jt stClosed "heart" rOk).enqueued = []
    ∧ (play_jt stClosed "heart" rOk).state = stClosed
    ∧ ∃ e, (play_jt stClosed "heart" rOk).result = Except.error e :=
  ⟨C5_stop_behaviour.1 st0 rfl,
   C5_stop_behaviour.2.1 send0 [true] [],
   (C5_stop_behaviour.2.2 stClosed "heart" rOk rfl).1,
   (C5_stop_behaviour.2.2 stClosed "heart" rOk rfl).2.1,
   (C5_stop_behaviour.2.2 stClosed "heart" rOk rfl).2.2⟩

/-- C7 fails as stated: with LastSucceeded set to /a/b.jt but that file no
longer existing, the /on endpoint raises 404 and runs no command, so a
set LastSucceeded is not unconditionally re-submitted. -/
theorem C7_counterexample :
    SignApi.sign_on ⟨some "/a/b.jt", []⟩ true
      = ⟨Except.error ⟨404, "Last JT file not found: /a/b.jt"⟩, []⟩ := rfl

/-- C7 amended: when LAST_JT is unset (or empty), /on fails with the
local 400 nothing-to-resume error and runs no command; when it is set,
the recorded path is re-submitted only if its file still exists, and
otherwise a 404 is raised, again with no command run. -/
theorem C7_amended_resume :
    (∀ (files : List String) (runOk : Bool),
      SignApi.sign_on ⟨none, files⟩ runOk
        = ⟨Except.error ⟨400, "No last JT animation to resume yet."⟩, []⟩)
    ∧ (∀ (p : String) (files : List String) (runOk : Bool),
        p ≠ "" → p ∈ files →
        (SignApi.sign_on ⟨some p, files⟩ runOk).cmds = [["-jt", p]])
    ∧ (∀ (p : String) (files : List String) (runOk : Bool),
        p ≠ "" → p ∉ files →
        SignApi.sign_on ⟨some p, files⟩ runOk
          = ⟨Except.error ⟨404, "Last JT file not found: " ++ p⟩, []⟩) := by
  refine ⟨?_, ?_, ?_⟩
  · intro files runOk
    rfl
  · intro p files runOk h1 h2
    by_cases hr : runOk <;> simp [SignApi.sign_on, h1, h2, hr]
  · intro p files runOk h1 h2
    simp [SignApi.sign_on, h1, h2]

/-- C7 amended, applied at concrete inputs. -/
theorem C7_amended_witness :
    SignApi.sign_on ⟨none, []⟩ true
      = ⟨Except.error ⟨400, "No last JT animation to resume yet."⟩, []⟩
    ∧ (SignApi.sign_on ⟨some "/a/heart.jt", ["/a/heart.jt"]⟩ true).cmds
        = [["-jt", "/a/heart.jt"]]
    ∧ SignApi.sign_on ⟨some "/a/heart.jt", []⟩ true
        = ⟨Except.error ⟨404, "Last JT file not found: /a/heart.jt"⟩, []⟩ :=
  ⟨C7_amended_resume.1 [] true,
   C7_amended_resume.2.1 "/a/heart.jt" ["/a/heart.jt"] true (by decide) (by decide),
   C7_amended_resume.2.2 "/a/heart.jt" [] true (by decide) (by decide)⟩

/-- C8: one play_jt call sets last_jt to the resolved payload path
exactly when the Result it returns has ok=true, leaves it unchanged when
the Result has ok=false, leaves the whole state unchanged when it raises
before dispatch, and stop never changes last_jt (no other facade
operation touches it). -/
theorem C8_last_jt_update :
    ∀ (st : SyncState) (name : String) (oracle : Result),
      (∀ r, (play_jt st name oracle).result = Except.ok r →
        (play_jt st name oracle).state.last_jt
          = if r.ok then some (resolveJt st.anim_dir (pyStrip name))
            else st.last_jt)
      ∧ (∀ e, (play_jt st name oracle).result = Except.error e →
          (play_jt st name oracle).state = st)
      ∧ (∀ st2, stop st = Except.ok st2 → st2.last_jt = st.last_jt) := by
  intro st name oracle
  have hstop : ∀ st2, stop st = Except.ok st2 → st2.last_jt = st.last_jt := by
    intro st2 hs
    by_cases hc : st.loopClosed
    · simp [stop, hc] at hs
    · simp [stop, hc] at hs
      subst hs
      rfl
  refine ⟨?_, ?_, hstop⟩
  · intro r hr
    by_cases h1 : pyStrip name = ""
    · simp [play_jt, h1] at hr
    · by_cases h2 : resolveJt st.anim_dir (pyStrip name) ∈ st.files
      · by_cases h3 : st.loopClosed
        · simp [play_jt, h1, h2, h3] at hr
        · have hr2 : oracle = r := by simpa [play_jt, h1, h2, h3] using hr
          subst hr2
          by_cases h4 : oracle.ok = true
          · simp [play_jt, h1, h2, h3, h4]
          · simp [play_jt, h1, h2, h3, h4]
      · simp [play_jt, h1, h2] at hr
  · intro e he
    by_cases h1 : pyStrip name = ""
    · simp [play_jt, h1]
    · by_cases h2 : resolveJt st.anim_dir (pyStrip name) ∈ st.files
      · by_cases h3 : st.loopClosed
        · simp [play_jt, h1, h2, h3]
        · simp [play_jt, h1, h2, h3] at he
      · simp [play_jt, h1, h2]

/-- C8 applied at concrete inputs: a successful submit records the
resolved path, a rejected submit leaves the state alone, and stopping
preserves last_jt. -/
theorem C8_witness :
    (play_jt st0 "heart" rOk).state.last_jt
      = (if rOk.ok then some (resolveJt st0.anim_dir (pyStrip "heart"))
         else st0.last_jt)
    ∧ (play_jt st0 "nope" rOk).state = st0
    ∧ ({ st0 with stopFlag := true, loopClosed := true } : SyncState).last_jt
        = st0.last_jt :=
  ⟨(C8_last_jt_update st0 "heart" rOk).1 rOk rfl,
   (C8_last_jt_update st0 "nope" rOk).2.1
     (PyErr.fileNotFoundError
       ("JT not found: " ++ pathToString (resolveJt st0.anim_dir (pyStrip "nope"))))
     rfl,
   (C8_last_jt_update st0 "heart" rOk).2.2
     { st0 with stopFlag := true, loopClosed := true } rfl⟩

/-- C9: a Job dispatched successfully has its slot resolved with ok=true,
the Job kind, the string form of the Job resolved path and no error
field; and whenever play_jt enqueued a Job, the caller receives exactly
the Result that Job future was resolved with. -/
theorem C9_success_result_shape :
    (∀ p : List String,
      process_job ⟨"jt", p⟩ FutureState.unset SendOutcome.success
        = (FutureState.set ⟨true, "jt", pathToString p, none⟩, none))
    ∧ (∀ (st : SyncState) (name : String) (oracle : Result),
        (play_jt st name oracle).enqueued ≠ [] →
        (play_jt st name oracle).result = Except.ok oracle) := by
  constructor
  · intro p
    rfl
  · intro st name oracle h
    by_cases h1 : pyStrip name = ""
    · simp [play_jt, h1] at h
    · by_cases h2 : resolveJt st.anim_dir (pyStrip name) ∈ st.files
      · by_cases h3 : st.loopClosed
        · simp [play_jt, h1, h2, h3] at h
        · simp [play_jt, h1, h2, h3]
      · simp [play_jt, h1, h2] at h

/-- C9 applied at a concrete input. -/
theorem C9_witness :
    (play_jt st0 "heart" rOk).result = Except.ok rOk :=
  C9_success_result_shape.2 st0 "heart" rOk (by decide)

/-- C10: play_jt checks only non-emptiness and existence, not containment
in anim_dir: the non-empty name "../x/y" resolves to
/home/tommy/coolledx-driver/x/y.jt, outside the animations directory,
and with that file existing the request is accepted, a Job for the
escaped path is enqueued, and the worker dispatches it. -/
theorem C10_no_containment_check :
    pyStrip "../x/y" = "../x/y"
    ∧ ("../x/y" : String) ≠ ""
    ∧ resolveJt animDir0 "../x/y"
        = ["home", "tommy", "coolledx-driver", "x", "y.jt"]
    ∧ (resolveJt animDir0 "../x/y").take animDir0.length ≠ animDir0
    ∧ (play_jt
        ⟨animDir0, [["home", "tommy", "coolledx-driver", "x", "y.jt"]],
         false, false, none⟩ "../x/y" rOk).enqueued
        = [⟨"jt", ["home", "tommy", "coolledx-driver", "x", "y.jt"]⟩]
    ∧ (play_jt
        ⟨animDir0, [["home", "tommy", "coolledx-driver", "x", "y.jt"]],
         false, false, none⟩ "../x/y" rOk).result = Except.ok rOk
    ∧ dispatchedJobs (run_client_forever false send0 [true]
        [⟨"jt", ["home", "tommy", "coolledx-driver", "x", "y.jt"]⟩])
        = [⟨"jt", ["home", "tommy", "coolledx-driver", "x", "y.jt"]⟩] := by
  refine ⟨by decide, by decide, by decide, by decide, by decide, by decide, by decide⟩
